import Mathlib

/-!
# Verification of the k8s-graph graph-assembly engine

A shallow embedding, in Lean 4, of the graph-assembly core of the
`k8s-graph` repository: the `GraphBuilder` expansion algorithm
(`k8s_graph/builder.py`), the native relationship discoverer
(`k8s_graph/discoverers/native.py`), the CRD handler `supports`
predicates (`discoverers/handlers/helm.py`, `keda.py`), the label
selector rendering (`discoverers/handlers/base.py`), and the CRD
registry (`k8s_graph/crd_registry.py`).

Collaborators that the builder merely calls through (the fetching
client, the node-identity functions, the unified discoverer) are
modelled as parameters of a `BuildEnv` record: every theorem about the
builder quantifies over them, so the theorems hold for every client,
every discoverer set and every node-identity function, exactly as the
builder's code treats them as injected collaborators.
-/

/-- Identifier of a cluster resource: kind, name, optional namespace and
api version (`k8s_graph.models.ResourceIdentifier`); equality is
structural. -/
structure ResourceIdentifier where
  kind : String
  name : String
  ns : Option String := none
  apiVersion : Option String := none
deriving DecidableEq, Repr

/-- The relationship tags used by the embedded discoverer code
(`k8s_graph.models.RelationshipType`). Only the constructors exercised
by the embedded source functions are listed. -/
inductive RelationshipType where
  | OWNER | OWNED | LABEL_SELECTOR | SERVICE_ACCOUNT
  | VOLUME | ENV_FROM | ENV_VAR | PVC | PV | STORAGE_CLASS
  | INGRESS_BACKEND | HELM_MANAGED | KEDA_SCALE | MANAGED
deriving DecidableEq, Repr

/-- Modelled from the spec: the serialized tag string of a relationship
type (`models.py` is not part of the sources; the spec only fixes the
tag set, and no claim depends on the concrete strings, only on tag
identity). -/
def RelationshipType.value : RelationshipType → String
  | .OWNER => "OWNER"
  | .OWNED => "OWNED"
  | .LABEL_SELECTOR => "LABEL_SELECTOR"
  | .SERVICE_ACCOUNT => "SERVICE_ACCOUNT"
  | .VOLUME => "VOLUME"
  | .ENV_FROM => "ENV_FROM"
  | .ENV_VAR => "ENV_VAR"
  | .PVC => "PVC"
  | .PV => "PV"
  | .STORAGE_CLASS => "STORAGE_CLASS"
  | .INGRESS_BACKEND => "INGRESS_BACKEND"
  | .HELM_MANAGED => "HELM_MANAGED"
  | .KEDA_SCALE => "KEDA_SCALE"
  | .MANAGED => "MANAGED"

/-- A directed, typed edge proposal between two identifiers
(`k8s_graph.models.ResourceRelationship`). -/
structure ResourceRelationship where
  source : ResourceIdentifier
  target : ResourceIdentifier
  relationshipType : RelationshipType
  details : String
deriving DecidableEq, Repr

/-- The view of a resource dict that `builder.py` itself reads:
`resource.get("kind")` and `resource.get("metadata", {}).get("name" /
"namespace")`.  The `payload` field keeps distinct resource bodies
distinguishable for the injected collaborator functions. -/
structure Resource where
  kind : Option String := none
  name : Option String := none
  ns : Option String := none
  payload : Nat := 0
deriving DecidableEq, Repr

/-- A node attribute bag, as stored by `graph.add_node(node_id, **attrs)`:
a keyword dict of stringly attributes. -/
def NodeAttrs := List (String × Option String)
deriving DecidableEq, Repr

/-- Edge attributes stored by `graph.add_edge(..., relationship_type=...,
details=...)` (builder.py lines 253-259). -/
structure EdgeAttrs where
  relationshipType : String
  details : String
deriving DecidableEq, Repr

/-- The directed graph under construction.  Node and edge stores are
kept as insertion-ordered lists; `builder.py` guards every insertion
with `has_node` / `has_edge`, which is what keeps the keys duplicate
free (proved below, not assumed). -/
structure Graph where
  nodes : List (String × NodeAttrs) := []
  edges : List (String × String × EdgeAttrs) := []
deriving DecidableEq, Repr

def Graph.hasNode (g : Graph) (nodeId : String) : Bool :=
  g.nodes.any (fun p => p.1 == nodeId)

def Graph.addNode (g : Graph) (nodeId : String) (attrs : NodeAttrs) : Graph :=
  { g with nodes := g.nodes ++ [(nodeId, attrs)] }

def Graph.numNodes (g : Graph) : Nat := g.nodes.length

def Graph.hasEdge (g : Graph) (s t : String) : Bool :=
  g.edges.any (fun e => e.1 == s && e.2.1 == t)

def Graph.addEdge (g : Graph) (s t : String) (attrs : EdgeAttrs) : Graph :=
  { g with edges := g.edges ++ [(s, t, attrs)] }

def Graph.numEdges (g : Graph) : Nat := g.edges.length

/-- The guarded node insertion `if not graph.has_node(id):
graph.add_node(id, **attrs)` used at builder.py lines 219-221 and
245-251. -/
def Graph.ensureNode (g : Graph) (nodeId : String) (attrs : NodeAttrs) : Graph :=
  if g.hasNode nodeId then g else g.addNode nodeId attrs

/-- The guarded edge insertion `if not graph.has_edge(s, t):
graph.add_edge(...)` used at builder.py lines 253-259. -/
def Graph.ensureEdge (g : Graph) (s t : String) (attrs : EdgeAttrs) : Graph :=
  if g.hasEdge s t then g else g.addEdge s t attrs

/-- The record stored per pod template in `GraphBuilder._pod_templates`
(builder.py lines 319-323). -/
structure PodTemplateRec where
  nodeId : String
  name : Option String
  ns : Option String
deriving DecidableEq, Repr

/-- The per-build mutable state of `GraphBuilder`: the graph, the
`visited` set (kept as a membership list) and `_pod_templates`. -/
structure BuildState where
  graph : Graph := {}
  visited : List String := []
  podTemplates : List (String × PodTemplateRec) := []
deriving DecidableEq, Repr

/-- `BuildOptions` (`k8s_graph.models.BuildOptions`): the fields the
builder reads. -/
structure BuildOptions where
  includeRbac : Bool := true
  includeNetwork : Bool := true
  includeCrds : Bool := true
  maxNodes : Nat := 500

/-- The builder's injected collaborators, over which every builder
theorem quantifies: the fetch client (`get_resource`/`list_resources`,
deterministic per the spec's sequential model), the unified
discoverer's `discover_all_relationships` (with the per-build
`DiscoveryOptions` already folded in, as the builder constructs them
from the same `BuildOptions` on every call), and the three
`NodeIdentity` functions. -/
structure BuildEnv where
  getResource : ResourceIdentifier → Option Resource
  listResources : String → String → List Resource
  discover : Resource → List ResourceRelationship
  nodeId : Resource → String
  extractAttrs : Resource → NodeAttrs
  podTemplateId : Resource → Option String

/-- `GraphBuilder._should_sample_pod` (builder.py lines 291-324):
returns whether the pod is skipped, together with the updated
`_pod_templates` mapping (the Python method mutates it in place when it
records a new representative).  Python falsiness of `template_id`
covers both `None` and the empty string. -/
def shouldSamplePod (env : BuildEnv) (resource : Resource) (nodeId : String)
    (templates : List (String × PodTemplateRec)) :
    Bool × List (String × PodTemplateRec) :=
  if resource.kind ≠ some "Pod" then (false, templates)
  else
    match env.podTemplateId resource with
    | none => (false, templates)
    | some tid =>
      if tid = "" then (false, templates)
      else if (templates.lookup tid).isSome then (true, templates)
      else (false, templates ++ [(tid, ⟨nodeId, resource.name, resource.ns⟩)])

/-- `GraphBuilder._get_node_id_from_identifier` (builder.py lines
326-340): `namespace = resource_id.namespace or "cluster"` substitutes
`"cluster"` for both `None` and the empty string (Python falsiness). -/
def nodeIdFromIdentifier (rid : ResourceIdentifier) : String :=
  let ns := match rid.ns with
    | none => "cluster"
    | some s => if s = "" then "cluster" else s
  rid.kind ++ ":" ++ ns ++ ":" ++ rid.name

/-- The minimal placeholder attribute bag inserted for a relationship
endpoint whose full body has not been fetched (builder.py lines
245-251 and 272-278): kind, name and namespace only. -/
def placeholderAttrs (rid : ResourceIdentifier) : NodeAttrs :=
  [("kind", some rid.kind), ("name", some rid.name), ("namespace", rid.ns)]

/-- The entry phase of `GraphBuilder._expand_from_node` (builder.py
lines 210-229): ceiling check, pod sampling, node insertion and visited
bookkeeping.  Returns the updated state plus `some (node_id,
already_visited)` when the expansion continues to the discovery phase,
`none` when the call returns early. -/
def insertNodePhase (env : BuildEnv) (opts : BuildOptions) (resource : Resource)
    (st : BuildState) : BuildState × Option (String × Bool) :=
  let nodeId := env.nodeId resource
  if opts.maxNodes ≤ st.graph.numNodes then (st, none)
  else
    let sampled := shouldSamplePod env resource nodeId st.podTemplates
    if sampled.1 then ({ st with podTemplates := sampled.2 }, none)
    else
      let graph := st.graph.ensureNode nodeId (env.extractAttrs resource)
      let alreadyVisited := st.visited.contains nodeId
      (⟨graph, nodeId :: st.visited, sampled.2⟩, some (nodeId, alreadyVisited))

/-- Builder.py lines 243-262: ensure the target endpoint exists as a
node (with the minimal placeholder attributes when new) and ensure the
edge for the ordered pair (with the relationship's type and
details when the pair is new). -/
def relTargetPhase (nodeId : String) (rel : ResourceRelationship)
    (st : BuildState) : BuildState :=
  let tId := nodeIdFromIdentifier rel.target
  let g1 := st.graph.ensureNode tId (placeholderAttrs rel.target)
  let g2 := g1.ensureEdge nodeId tId ⟨rel.relationshipType.value, rel.details⟩
  { st with graph := g2 }

/-- Builder.py lines 264-269: fetch and recurse into an unvisited
target endpoint while the ceiling allows it; an absent resource leaves
the state as is. -/
def relRecurseTarget (expand : Resource → BuildState → BuildState)
    (env : BuildEnv) (opts : BuildOptions) (rel : ResourceRelationship)
    (st : BuildState) : BuildState :=
  let tId := nodeIdFromIdentifier rel.target
  if !st.visited.contains tId && st.graph.numNodes < opts.maxNodes then
    match env.getResource rel.target with
    | some r => expand r st
    | none => st
  else st

/-- Builder.py lines 271-278: ensure the source endpoint exists as a
node, unless it is the node being expanded. -/
def relSourcePhase (nodeId : String) (rel : ResourceRelationship)
    (st : BuildState) : BuildState :=
  let sId := nodeIdFromIdentifier rel.source
  if sId != nodeId && !st.graph.hasNode sId then
    { st with graph := st.graph.addNode sId (placeholderAttrs rel.source) }
  else st

/-- Builder.py lines 280-289: fetch and recurse into an unvisited
source endpoint distinct from the expanded node, ceiling allowing. -/
def relRecurseSource (expand : Resource → BuildState → BuildState)
    (env : BuildEnv) (opts : BuildOptions) (nodeId : String)
    (rel : ResourceRelationship) (st : BuildState) : BuildState :=
  let sId := nodeIdFromIdentifier rel.source
  if sId != nodeId && !st.visited.contains sId
      && st.graph.numNodes < opts.maxNodes then
    match env.getResource rel.source with
    | some r => expand r st
    | none => st
  else st

/-- The per-relationship body of `_expand_from_node`'s loop (builder.py
lines 242-289), parametric in the recursive expansion (applied at
`depth - 1`): the four phases above in the source's order. -/
def processOneRel (expand : Resource → BuildState → BuildState) (env : BuildEnv)
    (opts : BuildOptions) (nodeId : String) (rel : ResourceRelationship)
    (st : BuildState) : BuildState :=
  relRecurseSource expand env opts nodeId rel
    (relSourcePhase nodeId rel
      (relRecurseTarget expand env opts rel
        (relTargetPhase nodeId rel st)))

/-- The relationship loop of `_expand_from_node`, folded left over the
discovered relationships with explicit state passing. -/
def processRels (expand : Resource → BuildState → BuildState) (env : BuildEnv)
    (opts : BuildOptions) (nodeId : String) :
    List ResourceRelationship → BuildState → BuildState
  | [], st => st
  | rel :: rest, st =>
    processRels expand env opts nodeId rest
      (processOneRel expand env opts nodeId rel st)

/-- `GraphBuilder._expand_from_node` (builder.py lines 192-289),
recursion made structural on the remaining depth: at depth 0 only the
entry phase runs (`depth > 0` gates discovery); at depth `d+1` the
discovered relationships are processed with recursion at depth `d`. -/
def expandFromNode (env : BuildEnv) (opts : BuildOptions) :
    Nat → Resource → BuildState → BuildState
  | 0, resource, st => (insertNodePhase env opts resource st).1
  | d + 1, resource, st =>
    match insertNodePhase env opts resource st with
    | (st', none) => st'
    | (st', some (nodeId, alreadyVisited)) =>
      if alreadyVisited then st'
      else
        processRels (expandFromNode env opts d) env opts nodeId
          (env.discover resource) st'

/-- `GraphBuilder.build_from_resource` (builder.py lines 64-110): fresh
state, fetch the seed, return the empty state when it is absent,
otherwise expand. -/
def buildFromResource (env : BuildEnv) (rid : ResourceIdentifier) (depth : Nat)
    (opts : BuildOptions) : BuildState :=
  match env.getResource rid with
  | none => {}
  | some resource => expandFromNode env opts depth resource {}

/-- The inner resource loop of `build_namespace_graph` (builder.py lines
179-183): per-resource ceiling check, then expansion. -/
def expandList (env : BuildEnv) (opts : BuildOptions) (depth : Nat) :
    List Resource → BuildState → BuildState
  | [], st => st
  | r :: rest, st =>
    if opts.maxNodes ≤ st.graph.numNodes then st
    else expandList env opts depth rest (expandFromNode env opts depth r st)

/-- The kind list of `build_namespace_graph` (builder.py lines 146-170),
extended with RBAC and network kinds per the options. -/
def namespaceKinds (opts : BuildOptions) : List String :=
  ["Pod", "Service", "Deployment", "StatefulSet", "DaemonSet", "ReplicaSet",
   "Job", "CronJob", "ConfigMap", "Secret", "PersistentVolumeClaim",
   "ServiceAccount", "HorizontalPodAutoscaler", "PodDisruptionBudget",
   "ResourceQuota", "LimitRange", "Endpoints"]
  ++ (if opts.includeRbac then ["Role", "RoleBinding"] else [])
  ++ (if opts.includeNetwork then ["NetworkPolicy", "Ingress"] else [])

/-- The outer kind loop of `build_namespace_graph` (builder.py lines
172-183): the ceiling check before each listing models the `break`. -/
def buildNamespaceLoop (env : BuildEnv) (opts : BuildOptions) (ns : String)
    (depth : Nat) : List String → BuildState → BuildState
  | [], st => st
  | kind :: rest, st =>
    if opts.maxNodes ≤ st.graph.numNodes then st
    else
      buildNamespaceLoop env opts ns depth rest
        (expandList env opts depth (env.listResources kind ns) st)

/-- `GraphBuilder.build_namespace_graph` (builder.py lines 112-190). -/
def buildNamespaceGraph (env : BuildEnv) (ns : String) (depth : Nat)
    (opts : BuildOptions) : BuildState :=
  buildNamespaceLoop env opts ns depth (namespaceKinds opts) {}

/-- The result record of `GraphBuilder.get_pod_sampling_info`
(builder.py lines 360-375). -/
structure PodSamplingInfo where
  sampledCount : Nat
  totalCount : Nat
  templates : List PodTemplateRec
deriving DecidableEq, Repr

/-- `GraphBuilder.get_pod_sampling_info` over the final build state. -/
def getPodSamplingInfo (st : BuildState) : PodSamplingInfo :=
  { sampledCount := st.podTemplates.length
    totalCount := st.podTemplates.length * 3
    templates := st.podTemplates.map Prod.snd }

/-! ## Native discoverer (`k8s_graph/discoverers/native.py`) -/

/-- One entry of `metadata.ownerReferences`, with the fields
`_discover_owner_references` reads; `Option` distinguishes absent
fields, an empty string models a present-but-falsy value. -/
structure OwnerRef where
  kind : Option String := none
  name : Option String := none
  apiVersion : Option String := none
deriving DecidableEq, Repr

/-- The view of a resource dict read by the embedded native-discoverer
functions: top-level kind and apiVersion, metadata name/namespace,
`metadata.ownerReferences` and `spec.selector` (an insertion-ordered
dict). -/
structure KResource where
  kind : Option String := none
  apiVersion : Option String := none
  metaName : Option String := none
  metaNs : Option String := none
  ownerReferences : List OwnerRef := []
  selector : List (String × String) := []
deriving DecidableEq, Repr

/-- Modelled from the spec: `BaseDiscoverer._extract_resource_identifier`
(the discoverer base module is not among the sources).  Per spec section
3 and section 7, constructing a `ResourceIdentifier` validates that the
kind is non-empty and starts with an uppercase letter and that the name
is non-empty; a failure surfaces as `ValueError`, which the callers in
`native.py` catch and turn into an empty relationship list.  `none`
models that failure. -/
def extractResourceIdentifier (r : KResource) : Option ResourceIdentifier :=
  match r.kind, r.metaName with
  | some k, some n =>
    if k != "" && (k.toList.headD ' ').isUpper && n != "" then
      some ⟨k, n, r.metaNs, r.apiVersion⟩
    else none
  | _, _ => none

/-- `NativeResourceDiscoverer._discover_owner_references` (native.py
lines 57-95): for each owner reference carrying a truthy kind and name,
emit an `OWNER` relationship whose source is the resource itself and
whose target is the owner. -/
def discoverOwnerReferences (r : KResource) : List ResourceRelationship :=
  if r.ownerReferences = [] then []
  else
    match extractResourceIdentifier r with
    | none => []
    | some source =>
      r.ownerReferences.filterMap fun oref =>
        match oref.kind, oref.name with
        | some ownerKind, some ownerName =>
          if ownerKind == "" || ownerName == "" then none
          else
            some ⟨source,
                  ⟨ownerKind, ownerName, r.metaNs, oref.apiVersion⟩,
                  RelationshipType.OWNER,
                  source.kind ++ " owned by " ++ ownerKind⟩
        | _, _ => none

/-- `BaseCRDHandler._parse_label_selector` (handlers/base.py lines
40-50): render a selector dict as comma-separated `key=value`
equalities. -/
def parseLabelSelector (selector : List (String × String)) : String :=
  String.intercalate "," (selector.map fun kv => kv.1 ++ "=" ++ kv.2)

/-- `NativeResourceDiscoverer._discover_service_relationships`
(native.py lines 97-128): for a non-empty `spec.selector`, emit a
single `LABEL_SELECTOR` relationship to the synthesized wildcard Pod
identifier `*[rendered-selector]` in the service's namespace.  The
function is pure: it takes no client and performs no fetch. -/
def discoverServiceRelationships (r : KResource) : List ResourceRelationship :=
  match extractResourceIdentifier r with
  | none => []
  | some source =>
    if r.selector = [] then []
    else
      [⟨source,
        ⟨"Pod", "*[" ++ parseLabelSelector r.selector ++ "]", source.ns, none⟩,
        RelationshipType.LABEL_SELECTOR,
        "Selects pods with labels: " ++ parseLabelSelector r.selector⟩]

/-! ## `supports` predicates over raw dicts
(`discoverers/handlers/helm.py`, `keda.py`)

To settle claims about explicitly null-valued fields, the resource
argument is embedded as a raw Python-like value, and the Python
attribute/method semantics (`.get` on a non-dict raises
`AttributeError`, `in` on a non-string raises `TypeError`) is modelled
with `Except`. -/

/-- A Python value as far as the `supports` predicates observe it:
`None`, a string, or a dict. -/
inductive PyVal where
  | pynone : PyVal
  | pystr : String → PyVal
  | pydict : List (String × PyVal) → PyVal

/-- Python's `v is None` identity test. -/
def PyVal.isPyNone : PyVal → Bool
  | .pynone => true
  | _ => false

/-- Python's `v == s` against a string literal: true exactly for an
equal string (comparing `None` or a dict with a string yields
`False`, it does not raise). -/
def PyVal.eqStr : PyVal → String → Bool
  | .pystr s, t => s == t
  | _, _ => false

/-- `d.get(k, default)` on a value known to be a dict. -/
def pyDictGet (entries : List (String × PyVal)) (k : String)
    (default : PyVal) : PyVal :=
  match entries.lookup k with
  | some v => v
  | none => default

/-- `v.get(k, default)` on an arbitrary value: raises `AttributeError`
unless `v` is a dict. -/
def pyGet (v : PyVal) (k : String) (default : PyVal) : Except String PyVal :=
  match v with
  | .pydict entries => .ok (pyDictGet entries k default)
  | _ => .error "AttributeError"

/-- Substring containment on strings, for Python's `needle in hay`. -/
def strContainsSub (hay needle : String) : Bool :=
  go hay.toList
where
  go : List Char → Bool
    | [] => needle.toList.isPrefixOf []
    | c :: rest => needle.toList.isPrefixOf (c :: rest) || go rest

/-- `HelmHandler.supports` (helm.py lines 11-14), with Python
evaluation order: the first operand of `or` is evaluated first and
short-circuits. -/
def helmSupports (resource : List (String × PyVal)) : Except String Bool := do
  let meta1 := pyDictGet resource "metadata" (.pydict [])
  let annots ← pyGet meta1 "annotations" (.pydict [])
  let rel ← pyGet annots "meta.helm.sh/release-name" .pynone
  if !rel.isPyNone then
    return true
  else
    let meta2 := pyDictGet resource "metadata" (.pydict [])
    let labels ← pyGet meta2 "labels" (.pydict [])
    let managedBy ← pyGet labels "app.kubernetes.io/managed-by" .pynone
    return managedBy.eqStr "Helm"

/-- `KEDAHandler.supports` (keda.py lines 21-25), with Python `and`
short-circuiting: the kind membership test never raises; the
`"keda.sh" in api_version` test raises `TypeError` when `api_version`
is not a string. -/
def kedaSupports (resource : List (String × PyVal)) : Except String Bool :=
  let kind := pyDictGet resource "kind" .pynone
  let apiVersion := pyDictGet resource "apiVersion" (.pystr "")
  if kind.eqStr "ScaledObject" || kind.eqStr "ScaledJob" then
    match apiVersion with
    | .pystr s => .ok (strContainsSub s "keda.sh")
    | _ => .error "TypeError"
  else .ok false

/-! ## CRD registry (`k8s_graph/crd_registry.py`) -/

/-- A handler as `CRDRegistry.register_handler` observes it: the two
`hasattr` probes, and the two capability calls, each of which may raise
(modelled with `Except`).  `get_crd_info` may return `None` or a dict
(modelled as a key/value list, since the code checks key presence). -/
structure CrdHandlerModel where
  hasGetCrdKinds : Bool := true
  hasGetCrdInfo : Bool := true
  getCrdKinds : Except String (List String)
  getCrdInfo : String → Except String (Option (List (String × String)))

/-- The registry's `_crd_mapping`: kind to CRD info, insertion
ordered. -/
abbrev CrdMapping := List (String × List (String × String))

/-- The per-kind loop of `CRDRegistry.register_handler`
(crd_registry.py lines 67-82): an exception from `get_crd_info` is
caught by the method's outer `try`, so the entries inserted before it
remain; a complete info dict is inserted only when the kind is not yet
mapped (existing entries are kept); a falsy or incomplete info dict is
skipped. -/
def registerKinds (h : CrdHandlerModel) : List String → CrdMapping → CrdMapping
  | [], m => m
  | kind :: rest, m =>
    match h.getCrdInfo kind with
    | .error _ => m
    | .ok info? =>
      let m' : CrdMapping :=
        match info? with
        | none => m
        | some info =>
          if !info.isEmpty &&
              (["group", "version", "plural"].all fun key =>
                (info.lookup key).isSome) then
            if (List.lookup kind m).isSome then m
            else m ++ [(kind, info)]
          else m
      registerKinds h rest m'

/-- `CRDRegistry.register_handler` (crd_registry.py lines 54-85): a
handler failing either `hasattr` probe is ignored; an exception from
`get_crd_kinds` itself is caught with the mapping untouched. -/
def registerHandler (m : CrdMapping) (h : CrdHandlerModel) : CrdMapping :=
  if !(h.hasGetCrdKinds && h.hasGetCrdInfo) then m
  else
    match h.getCrdKinds with
    | .error _ => m
    | .ok kinds => registerKinds h kinds m

/-- `CRDRegistry.get_crd_info` (crd_registry.py lines 87-97). -/
def getCrdInfoOf (m : CrdMapping) (kind : String) :
    Option (List (String × String)) :=
  List.lookup kind m

/-! ## Invariants and preservation predicates -/

/-- Whether a value is a Python dict. -/
def PyVal.isDict : PyVal → Bool
  | .pydict _ => true
  | _ => false

/-- Whether a value is a Python string. -/
def PyVal.isStr : PyVal → Bool
  | .pystr _ => true
  | _ => false

/-- The node ids present in the graph, in insertion order. -/
def nodeKeys (g : Graph) : List String := g.nodes.map Prod.fst

/-- The ordered (source, target) pairs of the stored edges. -/
def edgeKeys (g : Graph) : List (String × String) :=
  g.edges.map fun e => (e.1, e.2.1)

/-- The pod template ids recorded in a build state. -/
def templateKeys (st : BuildState) : List String :=
  st.podTemplates.map Prod.fst

/-- The build-state invariant maintained by the guarded insertions: node
ids, ordered edge pairs and pod template ids are each duplicate
free. -/
def StInv (st : BuildState) : Prop :=
  (nodeKeys st.graph).Nodup ∧ (edgeKeys st.graph).Nodup ∧
    (templateKeys st).Nodup

instance (st : BuildState) : Decidable (StInv st) := by
  unfold StInv; exact instDecidableAnd

/-- Evolution relation between two build states: nodes, edges and pod
template records only ever accumulate (each recorded entry persists with
its attributes), and the duplicate-freedom invariant carries over. -/
def MonoState (st st' : BuildState) : Prop :=
  (∀ p ∈ st.graph.nodes, p ∈ st'.graph.nodes) ∧
  (∀ e ∈ st.graph.edges, e ∈ st'.graph.edges) ∧
  (∀ t ∈ st.podTemplates, t ∈ st'.podTemplates) ∧
  (StInv st → StInv st')

/-- A state transformer that only evolves the state monotonically. -/
def StepOK (f : BuildState → BuildState) : Prop :=
  ∀ st, MonoState st (f st)

/-! ## Concrete instances used by counterexamples and witnesses -/

/-- A seed identifier for the concrete build scenarios. -/
def ridA : ResourceIdentifier := ⟨"A", "a", some "default", none⟩

/-- The seed resource body behind `ridA`. -/
def resA : Resource := { kind := some "A", name := some "a", ns := some "default" }

/-- A relationship from the seed to a distinct endpoint `B:default:b`. -/
def relAB : ResourceRelationship :=
  ⟨⟨"A", "a", some "default", none⟩, ⟨"B", "b", some "default", none⟩,
   .OWNED, "owns"⟩

/-- A second relationship for the same ordered endpoint pair as `relAB`
but with a different type and different details. -/
def relAB2 : ResourceRelationship :=
  ⟨⟨"A", "a", some "default", none⟩, ⟨"B", "b", some "default", none⟩,
   .OWNER, "second"⟩

/-- A concrete node-identity function for the scenario environments
(`kind:namespace:name` over the structured resource view). -/
def simpleNodeId (r : Resource) : String :=
  (r.kind.getD "?") ++ ":" ++ (r.ns.getD "cluster") ++ ":" ++ (r.name.getD "?")

/-- Environment for the ceiling scenario: the client serves only the
seed, whose discovery yields one relationship to the distinct endpoint
`B`. -/
def envSingleRel : BuildEnv :=
  { getResource := fun rid => if rid.kind = "A" then some resA else none
    listResources := fun _ _ => []
    discover := fun r => if r.kind = some "A" then [relAB] else []
    nodeId := simpleNodeId
    extractAttrs := fun r => [("kind", r.kind), ("name", r.name), ("namespace", r.ns)]
    podTemplateId := fun _ => none }

/-- Environment whose discovery re-discovers the same ordered endpoint
pair twice with different relationship values. -/
def envDupRel : BuildEnv :=
  { envSingleRel with
    discover := fun r => if r.kind = some "A" then [relAB, relAB2] else [] }

/-- A client that has no resources at all. -/
def envEmpty : BuildEnv :=
  { envSingleRel with getResource := fun _ => none, discover := fun _ => [] }

/-- A pod resource for the sampling scenario. -/
def podRes : Resource :=
  { kind := some "Pod", name := some "nginx-rs-x7z9q", ns := some "default" }

/-- Environment in which every pod maps to the one template id
`default:ReplicaSet:nginx-rs:abc123`. -/
def envPod : BuildEnv :=
  { envSingleRel with
    getResource := fun rid => if rid.kind = "Pod" then some podRes else none
    discover := fun _ => []
    podTemplateId := fun r =>
      if r.kind = some "Pod" then some "default:ReplicaSet:nginx-rs:abc123"
      else none }

/-- A build state in which a representative pod for the template
`default:ReplicaSet:nginx-rs:abc123` has already been recorded. -/
def stTemplate : BuildState :=
  { graph := { nodes := [("Pod:default:nginx-rs-first", [("kind", some "Pod")])] }
    visited := ["Pod:default:nginx-rs-first"]
    podTemplates := [("default:ReplicaSet:nginx-rs:abc123",
      ⟨"Pod:default:nginx-rs-first", some "nginx-rs-first", some "default"⟩)] }

/-- A build state holding one node with one attribute bag and one
edge, for the write-once and keep-first witnesses. -/
def stSeeded : BuildState :=
  { graph := { nodes := [("X:ns1:x", [("kind", some "X"), ("phase", some "Running")])]
               edges := [("X:ns1:x", "Y:ns1:y", ⟨"OWNER", "first details"⟩)] }
    visited := []
    podTemplates := [] }

/-- A pod carrying one owner reference to a ReplicaSet — the
owner-direction counterexample resource. -/
def cexPod : KResource :=
  { kind := some "Pod", metaName := some "mypod", metaNs := some "default"
    ownerReferences :=
      [{ kind := some "ReplicaSet", name := some "myrs", apiVersion := some "apps/v1" }] }

/-- A Service with `spec.selector = {app: nginx}`. -/
def svcNginx : KResource :=
  { kind := some "Service", metaName := some "web", metaNs := some "default"
    selector := [("app", "nginx")] }

/-- A resource dict whose `metadata` key is present with value `None`. -/
def helmNullMeta : List (String × PyVal) := [("metadata", .pynone)]

/-- A Helm-managed resource dict with well-typed nested fields. -/
def helmLabelled : List (String × PyVal) :=
  [("kind", .pystr "Deployment"),
   ("metadata", .pydict
     [("labels", .pydict [("app.kubernetes.io/managed-by", .pystr "Helm")])])]

/-- A ScaledObject dict whose `apiVersion` key is present with value
`None`. -/
def kedaNullApi : List (String × PyVal) :=
  [("kind", .pystr "ScaledObject"), ("apiVersion", .pynone)]

/-- A well-typed ScaledObject dict. -/
def kedaScaled : List (String × PyVal) :=
  [("kind", .pystr "ScaledObject"), ("apiVersion", .pystr "keda.sh/v1alpha1")]

/-- A complete CRD info dict. -/
def infoGVP : List (String × String) :=
  [("group", "g"), ("version", "v"), ("plural", "p")]

/-- A different complete CRD info dict for the same kind. -/
def infoGVP2 : List (String × String) :=
  [("group", "g2"), ("version", "v2"), ("plural", "p2")]

/-- A handler that registers kind `A` successfully and then raises from
`get_crd_info` on kind `B`. -/
def raisingHandler : CrdHandlerModel :=
  { getCrdKinds := .ok ["A", "B"]
    getCrdInfo := fun k => if k = "A" then .ok (some infoGVP) else .error "boom" }

/-- A handler reporting different info for the already-registered kind
`A`. -/
def conflictHandler : CrdHandlerModel :=
  { getCrdKinds := .ok ["A"]
    getCrdInfo := fun _ => .ok (some infoGVP2) }

/-- A handler lacking the `get_crd_kinds` capability. -/
def noCapHandler : CrdHandlerModel :=
  { hasGetCrdKinds := false
    getCrdKinds := .ok ["A"]
    getCrdInfo := fun _ => .ok (some infoGVP2) }

/-- A handler whose `get_crd_kinds` itself raises. -/
def kindsRaiseHandler : CrdHandlerModel :=
  { getCrdKinds := .error "boom"
    getCrdInfo := fun _ => .ok (some infoGVP2) }

/-! ## Helper lemmas: lists, graph operations -/

theorem lookup_append_some {β : Type} {l l' : List (String × β)} {k : String}
    {v : β} (h : List.lookup k l = some v) :
    List.lookup k (l ++ l') = some v := by
  induction l with
  | nil => simp [List.lookup] at h
  | cons p rest ih =>
    rw [List.cons_append]
    rw [List.lookup] at h ⊢
    cases hpk : (k == p.1) with
    | true => simpa [hpk] using h
    | false =>
      simp only [hpk] at h ⊢
      exact ih h

theorem not_mem_keys_of_lookup_isSome_eq_false {β : Type}
    {l : List (String × β)} {k : String}
    (h : (List.lookup k l).isSome = false) : k ∉ l.map Prod.fst := by
  induction l with
  | nil => simp
  | cons p rest ih =>
    rw [List.lookup] at h
    cases hpk : (k == p.1) with
    | true => simp [hpk] at h
    | false =>
      simp only [hpk] at h
      simp only [List.map_cons, List.mem_cons]
      rintro (hk | hmem)
      · rw [hk] at hpk
        simp at hpk
      · exact ih h hmem

theorem nodup_snoc {α : Type} {l : List α} {a : α} (h : l.Nodup)
    (ha : a ∉ l) : (l ++ [a]).Nodup := by
  simp [List.nodup_append, h, ha]

theorem not_mem_nodeKeys_of_hasNode_eq_false {g : Graph} {nodeId : String}
    (h : g.hasNode nodeId = false) : nodeId ∉ nodeKeys g := by
  intro hmem
  simp only [nodeKeys, List.mem_map] at hmem
  obtain ⟨p, hp, hfst⟩ := hmem
  have htrue : g.hasNode nodeId = true := by
    unfold Graph.hasNode
    exact List.any_eq_true.mpr ⟨p, hp, by simp [hfst]⟩
  rw [htrue] at h
  cases h

theorem not_mem_edgeKeys_of_hasEdge_eq_false {g : Graph} {s t : String}
    (h : g.hasEdge s t = false) : (s, t) ∉ edgeKeys g := by
  intro hmem
  simp only [edgeKeys, List.mem_map] at hmem
  obtain ⟨e, he, hkey⟩ := hmem
  have h1 : e.1 = s := congrArg Prod.fst hkey
  have h2 : e.2.1 = t := congrArg Prod.snd hkey
  have htrue : g.hasEdge s t = true := by
    unfold Graph.hasEdge
    exact List.any_eq_true.mpr ⟨e, he, by simp [h1, h2]⟩
  rw [htrue] at h
  cases h

theorem ensureNode_mem {g : Graph} {nodeId : String} {attrs : NodeAttrs} :
    ∀ p ∈ g.nodes, p ∈ (g.ensureNode nodeId attrs).nodes := by
  intro p hp
  unfold Graph.ensureNode
  split
  · exact hp
  · exact List.mem_append_left _ hp

theorem ensureNode_edges {g : Graph} {nodeId : String} {attrs : NodeAttrs} :
    (g.ensureNode nodeId attrs).edges = g.edges := by
  unfold Graph.ensureNode
  split <;> rfl

theorem ensureNode_nodeKeys_nodup {g : Graph} {nodeId : String}
    {attrs : NodeAttrs} (h : (nodeKeys g).Nodup) :
    (nodeKeys (g.ensureNode nodeId attrs)).Nodup := by
  unfold Graph.ensureNode
  split
  · exact h
  · next hfalse =>
    have hf : g.hasNode nodeId = false := by simpa using hfalse
    have hnot := not_mem_nodeKeys_of_hasNode_eq_false hf
    simp only [nodeKeys, Graph.addNode, List.map_append, List.map_cons,
      List.map_nil]
    exact nodup_snoc h hnot

theorem ensureEdge_nodes {g : Graph} {s t : String} {attrs : EdgeAttrs} :
    (g.ensureEdge s t attrs).nodes = g.nodes := by
  unfold Graph.ensureEdge
  split <;> rfl

theorem ensureEdge_mem {g : Graph} {s t : String} {attrs : EdgeAttrs} :
    ∀ e ∈ g.edges, e ∈ (g.ensureEdge s t attrs).edges := by
  intro e he
  unfold Graph.ensureEdge
  split
  · exact he
  · exact List.mem_append_left _ he

theorem ensureEdge_edgeKeys_nodup {g : Graph} {s t : String}
    {attrs : EdgeAttrs} (h : (edgeKeys g).Nodup) :
    (edgeKeys (g.ensureEdge s t attrs)).Nodup := by
  unfold Graph.ensureEdge
  split
  · exact h
  · next hfalse =>
    have hf : g.hasEdge s t = false := by simpa using hfalse
    have hnot := not_mem_edgeKeys_of_hasEdge_eq_false hf
    simp only [edgeKeys, Graph.addEdge, List.map_append, List.map_cons,
      List.map_nil]
    exact nodup_snoc h hnot

theorem addNode_mem {g : Graph} {nodeId : String} {attrs : NodeAttrs} :
    ∀ p ∈ g.nodes, p ∈ (g.addNode nodeId attrs).nodes := by
  intro p hp
  exact List.mem_append_left _ hp

theorem addNode_nodeKeys_nodup {g : Graph} {nodeId : String}
    {attrs : NodeAttrs} (h : (nodeKeys g).Nodup)
    (hfresh : g.hasNode nodeId = false) :
    (nodeKeys (g.addNode nodeId attrs)).Nodup := by
  have hnot := not_mem_nodeKeys_of_hasNode_eq_false hfresh
  simp only [nodeKeys, Graph.addNode, List.map_append, List.map_cons,
    List.map_nil]
  exact nodup_snoc h hnot

/-! ## Helper lemmas: state evolution through the expansion -/

theorem monoState_rfl (st : BuildState) : MonoState st st :=
  ⟨fun _ h => h, fun _ h => h, fun _ h => h, id⟩

theorem monoState_trans {a b c : BuildState} (h1 : MonoState a b)
    (h2 : MonoState b c) : MonoState a c :=
  ⟨fun p hp => h2.1 p (h1.1 p hp),
   fun e he => h2.2.1 e (h1.2.1 e he),
   fun t ht => h2.2.2.1 t (h1.2.2.1 t ht),
   fun hi => h2.2.2.2 (h1.2.2.2 hi)⟩

theorem shouldSamplePod_mem {env : BuildEnv} {resource : Resource}
    {nodeId : String} {templates : List (String × PodTemplateRec)} :
    ∀ t ∈ templates, t ∈ (shouldSamplePod env resource nodeId templates).2 := by
  intro t ht
  unfold shouldSamplePod
  split
  · exact ht
  · split
    · exact ht
    · split
      · exact ht
      · split
        · exact ht
        · exact List.mem_append_left _ ht

theorem shouldSamplePod_keys_nodup {env : BuildEnv} {resource : Resource}
    {nodeId : String} {templates : List (String × PodTemplateRec)}
    (h : (templates.map Prod.fst).Nodup) :
    ((shouldSamplePod env resource nodeId templates).2.map Prod.fst).Nodup := by
  unfold shouldSamplePod
  split
  · exact h
  · split
    · exact h
    · split
      · exact h
      · split
        · exact h
        · next hlook =>
          rename_i tid heq hne
          have hf : (List.lookup tid templates).isSome = false := by
            cases hls : (List.lookup tid templates).isSome
            · rfl
            · exact absurd hls hlook
          have hnot := not_mem_keys_of_lookup_isSome_eq_false hf
          simp only [List.map_append, List.map_cons, List.map_nil]
          exact nodup_snoc h hnot

theorem nodeKeys_ensureEdge {g : Graph} {s t : String} {attrs : EdgeAttrs} :
    nodeKeys (g.ensureEdge s t attrs) = nodeKeys g := by
  unfold nodeKeys
  rw [ensureEdge_nodes]

theorem edgeKeys_ensureNode {g : Graph} {nodeId : String} {attrs : NodeAttrs} :
    edgeKeys (g.ensureNode nodeId attrs) = edgeKeys g := by
  unfold edgeKeys
  rw [ensureNode_edges]

theorem stepOK_relTargetPhase {nodeId : String} {rel : ResourceRelationship} :
    StepOK (relTargetPhase nodeId rel) := by
  intro st
  refine ⟨?_, ?_, fun t ht => ht, ?_⟩
  · intro p hp
    show p ∈ ((st.graph.ensureNode _ _).ensureEdge _ _ _).nodes
    rw [ensureEdge_nodes]
    exact ensureNode_mem p hp
  · intro e he
    show e ∈ ((st.graph.ensureNode _ _).ensureEdge _ _ _).edges
    refine ensureEdge_mem e ?_
    rw [ensureNode_edges]
    exact he
  · rintro ⟨hn, he, ht⟩
    refine ⟨?_, ?_, ht⟩
    · show (nodeKeys ((st.graph.ensureNode _ _).ensureEdge _ _ _)).Nodup
      rw [nodeKeys_ensureEdge]
      exact ensureNode_nodeKeys_nodup hn
    · show (edgeKeys ((st.graph.ensureNode _ _).ensureEdge _ _ _)).Nodup
      refine ensureEdge_edgeKeys_nodup ?_
      rw [edgeKeys_ensureNode]
      exact he

theorem stepOK_relRecurseTarget {expand : Resource → BuildState → BuildState}
    {env : BuildEnv} {opts : BuildOptions} {rel : ResourceRelationship}
    (hexp : ∀ r, StepOK (expand r)) :
    StepOK (relRecurseTarget expand env opts rel) := by
  intro st
  simp only [relRecurseTarget]
  split
  · cases env.getResource rel.target with
    | some r => exact hexp r st
    | none => exact monoState_rfl st
  · exact monoState_rfl st

theorem stepOK_relSourcePhase {nodeId : String} {rel : ResourceRelationship} :
    StepOK (relSourcePhase nodeId rel) := by
  intro st
  simp only [relSourcePhase]
  split
  · next hcond =>
    have hfresh : st.graph.hasNode (nodeIdFromIdentifier rel.source) = false := by
      have h2 := (Bool.and_eq_true _ _).mp hcond |>.2
      cases hb : st.graph.hasNode (nodeIdFromIdentifier rel.source)
      · rfl
      · rw [hb] at h2
        cases h2
    exact ⟨fun p hp => addNode_mem p hp, fun e he => he, fun t ht => ht,
      fun ⟨hn, he, ht⟩ => ⟨addNode_nodeKeys_nodup hn hfresh, he, ht⟩⟩
  · exact monoState_rfl st

theorem stepOK_relRecurseSource {expand : Resource → BuildState → BuildState}
    {env : BuildEnv} {opts : BuildOptions} {nodeId : String}
    {rel : ResourceRelationship} (hexp : ∀ r, StepOK (expand r)) :
    StepOK (relRecurseSource expand env opts nodeId rel) := by
  intro st
  simp only [relRecurseSource]
  split
  · cases env.getResource rel.source with
    | some r => exact hexp r st
    | none => exact monoState_rfl st
  · exact monoState_rfl st

theorem stepOK_processOneRel {expand : Resource → BuildState → BuildState}
    {env : BuildEnv} {opts : BuildOptions} {nodeId : String}
    {rel : ResourceRelationship} (hexp : ∀ r, StepOK (expand r)) :
    StepOK (processOneRel expand env opts nodeId rel) := by
  intro st
  exact monoState_trans (stepOK_relTargetPhase st)
    (monoState_trans (stepOK_relRecurseTarget hexp _)
      (monoState_trans (stepOK_relSourcePhase _)
        (stepOK_relRecurseSource hexp _)))

theorem stepOK_processRels {expand : Resource → BuildState → BuildState}
    {env : BuildEnv} {opts : BuildOptions} {nodeId : String}
    (hexp : ∀ r, StepOK (expand r)) :
    ∀ rels, StepOK (processRels expand env opts nodeId rels) := by
  intro rels
  induction rels with
  | nil => intro st; exact monoState_rfl st
  | cons rel rest ih =>
    intro st
    exact monoState_trans (stepOK_processOneRel hexp st) (ih _)

theorem monoState_insertNodePhase {env : BuildEnv} {opts : BuildOptions}
    {resource : Resource} :
    ∀ st, MonoState st (insertNodePhase env opts resource st).1 := by
  intro st
  simp only [insertNodePhase]
  split
  · exact monoState_rfl st
  · split
    · exact ⟨fun p hp => hp, fun e he => he,
        fun t ht => shouldSamplePod_mem t ht,
        fun ⟨hn, he, ht⟩ => ⟨hn, he, shouldSamplePod_keys_nodup ht⟩⟩
    · refine ⟨fun p hp => ensureNode_mem p hp, ?_,
        fun t ht => shouldSamplePod_mem t ht, ?_⟩
      · intro e he
        show e ∈ (st.graph.ensureNode _ _).edges
        rw [ensureNode_edges]
        exact he
      · rintro ⟨hn, he, ht⟩
        refine ⟨ensureNode_nodeKeys_nodup hn, ?_, shouldSamplePod_keys_nodup ht⟩
        show (edgeKeys (st.graph.ensureNode _ _)).Nodup
        rw [edgeKeys_ensureNode]
        exact he

theorem stepOK_expandFromNode {env : BuildEnv} {opts : BuildOptions} :
    ∀ (depth : Nat) (r : Resource), StepOK (expandFromNode env opts depth r) := by
  intro depth
  induction depth with
  | zero => intro r st; exact monoState_insertNodePhase st
  | succ d ih =>
    intro r st
    show MonoState st (expandFromNode env opts (d + 1) r st)
    rw [expandFromNode]
    rcases hip : insertNodePhase env opts r st with ⟨st', opt⟩
    have hmono : MonoState st st' := by
      have := @monoState_insertNodePhase env opts r st
      rw [hip] at this
      exact this
    cases opt with
    | none => exact hmono
    | some pr =>
      rcases pr with ⟨nid, av⟩
      dsimp only
      split
      · exact hmono
      · exact monoState_trans hmono (stepOK_processRels (fun r => ih r) _ st')

theorem stepOK_expandList {env : BuildEnv} {opts : BuildOptions} {depth : Nat} :
    ∀ rs, StepOK (expandList env opts depth rs) := by
  intro rs
  induction rs with
  | nil => intro st; exact monoState_rfl st
  | cons r rest ih =>
    intro st
    unfold expandList
    split
    · exact monoState_rfl st
    · exact monoState_trans (stepOK_expandFromNode depth r st) (ih _)

theorem stepOK_namespaceLoop {env : BuildEnv} {opts : BuildOptions}
    {ns : String} {depth : Nat} :
    ∀ kinds, StepOK (buildNamespaceLoop env opts ns depth kinds) := by
  intro kinds
  induction kinds with
  | nil => intro st; exact monoState_rfl st
  | cons kind rest ih =>
    intro st
    unfold buildNamespaceLoop
    split
    · exact monoState_rfl st
    · exact monoState_trans (stepOK_expandList _ st) (ih _)

theorem stInv_empty : StInv {} :=
  ⟨List.nodup_nil, List.nodup_nil, List.nodup_nil⟩

theorem stInv_buildFromResource {env : BuildEnv} {rid : ResourceIdentifier}
    {depth : Nat} {opts : BuildOptions} :
    StInv (buildFromResource env rid depth opts) := by
  unfold buildFromResource
  cases env.getResource rid with
  | none => exact stInv_empty
  | some r => exact (stepOK_expandFromNode depth r {}).2.2.2 stInv_empty

theorem stInv_buildNamespaceGraph {env : BuildEnv} {ns : String}
    {depth : Nat} {opts : BuildOptions} :
    StInv (buildNamespaceGraph env ns depth opts) :=
  (stepOK_namespaceLoop (namespaceKinds opts) {}).2.2.2 stInv_empty

/-! ## Helper lemmas: sampling skip and registry -/

theorem insertNodePhase_skip {env : BuildEnv} {opts : BuildOptions}
    {r : Resource} {st : BuildState} {tid : String}
    (hkind : r.kind = some "Pod") (htid : env.podTemplateId r = some tid)
    (hne : tid ≠ "")
    (hmem : (st.podTemplates.lookup tid).isSome = true) :
    insertNodePhase env opts r st = (st, none) := by
  have hsample : ∀ nid, shouldSamplePod env r nid st.podTemplates
      = (true, st.podTemplates) := by
    intro nid
    simp [shouldSamplePod, hkind, htid, hne, hmem]
  simp [insertNodePhase, hsample]

theorem expandFromNode_skip {env : BuildEnv} {opts : BuildOptions}
    {r : Resource} {st : BuildState} {tid : String} (depth : Nat)
    (hkind : r.kind = some "Pod") (htid : env.podTemplateId r = some tid)
    (hne : tid ≠ "")
    (hmem : (st.podTemplates.lookup tid).isSome = true) :
    expandFromNode env opts depth r st = st := by
  cases depth with
  | zero =>
    show (insertNodePhase env opts r st).1 = st
    rw [insertNodePhase_skip hkind htid hne hmem]
  | succ d =>
    rw [expandFromNode]
    rw [insertNodePhase_skip hkind htid hne hmem]

theorem registerKinds_lookup {h : CrdHandlerModel} :
    ∀ (kinds : List String) {m : CrdMapping} {k : String}
      {v : List (String × String)}, List.lookup k m = some v →
      List.lookup k (registerKinds h kinds m) = some v := by
  intro kinds
  induction kinds with
  | nil => intro m k v hv; exact hv
  | cons kind rest ih =>
    intro m k v hv
    show List.lookup k (registerKinds h (kind :: rest) m) = some v
    rw [registerKinds]
    cases h.getCrdInfo kind with
    | error e => exact hv
    | ok info? =>
      cases info? with
      | none => exact ih hv
      | some info =>
        dsimp only
        split
        · split
          · exact ih hv
          · exact ih (lookup_append_some hv)
        · exact ih hv

/-! ## Claim theorems -/

/-- C1: the claim states that every build call with `max_nodes = m`
yields a graph with at most `m` nodes because the expansion checks the
ceiling before each insertion, including placeholder endpoint nodes.
The code does not check the ceiling before the placeholder insertions
(builder.py lines 245-251 and 272-278): with `max_nodes = 1` and a seed
whose discovery yields a single relationship to a distinct endpoint,
`build_from_resource` returns a graph with 2 nodes, exceeding the
ceiling.  This contradicts the builder's own documented "max nodes
limit enforcement" and the repository test asserting
`graph.number_of_nodes() <= max_nodes`. -/
theorem c1_max_nodes_ceiling_violated :
    (buildFromResource envSingleRel ridA 1
      { includeRbac := true, includeNetwork := true, includeCrds := true,
        maxNodes := 1 }).graph.numNodes = 2 := by
  decide

/-- C4: when the client has no resource for the seed identifier,
`build_from_resource` returns a graph with zero nodes and zero edges
(builder.py lines 98-101); the embedded builder is a total function, so
no exception can arise. -/
theorem c4_missing_seed_empty_graph (env : BuildEnv)
    (rid : ResourceIdentifier) (depth : Nat) (opts : BuildOptions)
    (h : env.getResource rid = none) :
    (buildFromResource env rid depth opts).graph.numNodes = 0 ∧
    (buildFromResource env rid depth opts).graph.numEdges = 0 := by
  unfold buildFromResource
  rw [h]
  exact ⟨rfl, rfl⟩

/-- Witness for C4 at a concrete empty client. -/
theorem c4_missing_seed_empty_graph_witness :
    envEmpty.getResource ridA = none ∧
    (buildFromResource envEmpty ridA 3 {}).graph.numNodes = 0 ∧
    (buildFromResource envEmpty ridA 3 {}).graph.numEdges = 0 :=
  ⟨rfl, c4_missing_seed_empty_graph envEmpty ridA 3 {} rfl⟩

/-- C5: a Pod whose template id is already recorded in `_pod_templates`
is skipped entirely by `_expand_from_node` — the state (graph nodes,
edges, visited set and template records) is returned unchanged, so no
node, no edge and no discovery happens for it (builder.py lines
216-217 and 291-324); and `get_pod_sampling_info()["sampled_count"]`
equals the number of distinct template ids recorded, since the recorded
template keys are duplicate free. -/
theorem c5_pod_sampling (env : BuildEnv) (opts : BuildOptions)
    (depth : Nat) (r : Resource) (st : BuildState) (tid : String)
    (rid : ResourceIdentifier) :
    (r.kind = some "Pod" → env.podTemplateId r = some tid → tid ≠ "" →
      (st.podTemplates.lookup tid).isSome = true →
      expandFromNode env opts depth r st = st) ∧
    (getPodSamplingInfo (buildFromResource env rid depth opts)).sampledCount
      = (templateKeys (buildFromResource env rid depth opts)).dedup.length := by
  constructor
  · intro hkind htid hne hmem
    exact expandFromNode_skip depth hkind htid hne hmem
  · have hnodup : (templateKeys (buildFromResource env rid depth opts)).Nodup :=
      (stInv_buildFromResource).2.2
    rw [List.Nodup.dedup hnodup]
    simp [getPodSamplingInfo, templateKeys]

/-- Witness for C5: a pod whose template is already represented leaves
the build state untouched. -/
theorem c5_pod_sampling_witness :
    podRes.kind = some "Pod" ∧
    envPod.podTemplateId podRes = some "default:ReplicaSet:nginx-rs:abc123" ∧
    (stTemplate.podTemplates.lookup
      "default:ReplicaSet:nginx-rs:abc123").isSome = true ∧
    expandFromNode envPod {} 2 podRes stTemplate = stTemplate :=
  ⟨rfl, rfl, by decide,
    (c5_pod_sampling envPod {} 2 podRes stTemplate
      "default:ReplicaSet:nginx-rs:abc123" ridA).1 rfl rfl (by decide)
      (by decide)⟩

/-- C8: node attributes are write-once.  Every node insertion in the
builder is guarded by `has_node`, so a node pair (id, attributes)
recorded in the state persists unchanged through any further expansion
— in particular a placeholder endpoint's minimal attributes are never
replaced when its full resource body is later fetched and expanded —
and node ids stay duplicate free, so the persisting pair is the node's
one attribute bag. -/
theorem c8_node_attrs_write_once (env : BuildEnv) (opts : BuildOptions)
    (depth : Nat) (r : Resource) (st : BuildState) (hinv : StInv st) :
    (∀ p ∈ st.graph.nodes,
      p ∈ (expandFromNode env opts depth r st).graph.nodes) ∧
    StInv (expandFromNode env opts depth r st) :=
  ⟨(stepOK_expandFromNode depth r st).1,
   (stepOK_expandFromNode depth r st).2.2.2 hinv⟩

/-- Witness for C8: a pre-existing node with its attribute bag survives
a concrete expansion unchanged. -/
theorem c8_node_attrs_write_once_witness :
    StInv stSeeded ∧
    ("X:ns1:x", [("kind", some "X"), ("phase", some "Running")])
      ∈ (expandFromNode envSingleRel {} 1 resA stSeeded).graph.nodes ∧
    StInv (expandFromNode envSingleRel {} 1 resA stSeeded) :=
  ⟨by decide,
   (c8_node_attrs_write_once envSingleRel {} 1 resA stSeeded (by decide)).1
     _ (by decide),
   (c8_node_attrs_write_once envSingleRel {} 1 resA stSeeded (by decide)).2⟩

/-- C3 counterexample: the claim says re-discovering a relationship for
an ordered pair that already has an edge overwrites the stored edge's
`relationship_type` and `details` with the re-discovered values.  In
the code the insertion is guarded by `has_edge` and simply skipped for
an existing pair (builder.py lines 253-259): discovering `relAB`
(OWNED/"owns") and then `relAB2` (OWNER/"second") for the same ordered
pair leaves the first values stored, not the re-discovered ones. -/
theorem c3_edge_overwrite_counterexample :
    (buildFromResource envDupRel ridA 1 {}).graph.edges
      = [("A:default:a", "B:default:b", ⟨"OWNED", "owns"⟩)] ∧
    relAB2.relationshipType.value = "OWNER" ∧ relAB2.details = "second" := by
  exact ⟨by decide, rfl, rfl⟩

/-- C3 amended: every build call yields at most one edge per ordered
(source, target) pair, and re-discovering a relationship for an
existing pair is idempotent in the keep-first sense: the stored edge
persists with its original `relationship_type` and `details`, and no
duplicate is added. -/
theorem c3_edge_unique_keep_first (env : BuildEnv) (opts : BuildOptions)
    (rid : ResourceIdentifier) (ns : String) (depth : Nat) (r : Resource)
    (st : BuildState) :
    (edgeKeys (buildFromResource env rid depth opts).graph).Nodup ∧
    (edgeKeys (buildNamespaceGraph env ns depth opts).graph).Nodup ∧
    (∀ e ∈ st.graph.edges,
      e ∈ (expandFromNode env opts depth r st).graph.edges) ∧
    (StInv st →
      (edgeKeys (expandFromNode env opts depth r st).graph).Nodup) :=
  ⟨(stInv_buildFromResource).2.1,
   (stInv_buildNamespaceGraph).2.1,
   (stepOK_expandFromNode depth r st).2.1,
   fun h => ((stepOK_expandFromNode depth r st).2.2.2 h).2.1⟩

/-- Witness for the amended C3 at a concrete seeded state. -/
theorem c3_edge_unique_keep_first_witness :
    ("X:ns1:x", "Y:ns1:y", (⟨"OWNER", "first details"⟩ : EdgeAttrs))
      ∈ stSeeded.graph.edges ∧
    ("X:ns1:x", "Y:ns1:y", (⟨"OWNER", "first details"⟩ : EdgeAttrs))
      ∈ (expandFromNode envDupRel {} 1 resA stSeeded).graph.edges ∧
    StInv stSeeded ∧
    (edgeKeys (expandFromNode envDupRel {} 1 resA stSeeded).graph).Nodup :=
  ⟨by decide,
   (c3_edge_unique_keep_first envDupRel {} ridA "default" 1 resA
      stSeeded).2.2.1 _ (by decide),
   by decide,
   (c3_edge_unique_keep_first envDupRel {} ridA "default" 1 resA
      stSeeded).2.2.2 (by decide)⟩

/-- C2 counterexample: the claim says the owner-reference relationship
is oriented parent-to-child (source = the owner, target = the resource
carrying the `ownerReferences` entry).  For a Pod owned by a
ReplicaSet, the Native discoverer emits exactly one relationship, whose
source is the Pod itself and whose target is the owner (native.py lines
66 and 79-93); no relationship with the owner as source is emitted. -/
theorem c2_owner_direction_counterexample :
    discoverOwnerReferences cexPod =
      [⟨⟨"Pod", "mypod", some "default", none⟩,
        ⟨"ReplicaSet", "myrs", some "default", some "apps/v1"⟩,
        .OWNER, "Pod owned by ReplicaSet"⟩] ∧
    (⟨⟨"ReplicaSet", "myrs", some "default", some "apps/v1"⟩,
      ⟨"Pod", "mypod", some "default", none⟩,
      .OWNER, "Pod owned by ReplicaSet"⟩ : ResourceRelationship)
      ∉ discoverOwnerReferences cexPod := by
  exact ⟨by decide, by decide⟩

/-- C2 amended: for every resource carrying an `ownerReferences` entry
with truthy kind K and name N, the Native discoverer emits an `OWNER`
relationship oriented child-to-parent: its source is the identifier of
the resource carrying the entry and its target is the owner (kind K,
name N, the resource's namespace, the entry's apiVersion). -/
theorem c2_owner_direction_amended (r : KResource)
    (src : ResourceIdentifier) (oref : OwnerRef) (K N : String)
    (hex : extractResourceIdentifier r = some src)
    (hmem : oref ∈ r.ownerReferences) (hK : oref.kind = some K)
    (hN : oref.name = some N) (hKne : K ≠ "") (hNne : N ≠ "") :
    (⟨src, ⟨K, N, r.metaNs, oref.apiVersion⟩, .OWNER,
      src.kind ++ " owned by " ++ K⟩ : ResourceRelationship)
      ∈ discoverOwnerReferences r := by
  unfold discoverOwnerReferences
  rw [if_neg (List.ne_nil_of_mem hmem), hex]
  refine List.mem_filterMap.mpr ⟨oref, hmem, ?_⟩
  simp [hK, hN, hKne, hNne]

/-- Witness for the amended C2 at the concrete owned Pod. -/
theorem c2_owner_direction_amended_witness :
    extractResourceIdentifier cexPod
      = some ⟨"Pod", "mypod", some "default", none⟩ ∧
    (⟨⟨"Pod", "mypod", some "default", none⟩,
      ⟨"ReplicaSet", "myrs", some "default", some "apps/v1"⟩,
      .OWNER, "Pod owned by ReplicaSet"⟩ : ResourceRelationship)
      ∈ discoverOwnerReferences cexPod :=
  ⟨by decide,
   c2_owner_direction_amended cexPod ⟨"Pod", "mypod", some "default", none⟩
     { kind := some "ReplicaSet", name := some "myrs",
       apiVersion := some "apps/v1" }
     "ReplicaSet" "myrs" (by decide) (by decide) rfl rfl (by decide)
     (by decide)⟩

/-- C6: for every Service resource (valid identifier, non-empty
`spec.selector`), `_discover_service_relationships` emits exactly one
relationship, of type `LABEL_SELECTOR`, from the Service to the
synthesized wildcard Pod identifier whose name is `*[selector]` with
the selector rendered as comma-separated `key=value` equalities; the
embedded function takes no client, so no Pod is ever fetched or
resolved.  For the selector `{app: nginx}` the rendered string is
`app=nginx` and the wildcard name contains it literally. -/
theorem c6_service_label_selector :
    (∀ (r : KResource) (src : ResourceIdentifier),
      r.kind = some "Service" → extractResourceIdentifier r = some src →
      r.selector ≠ [] →
      discoverServiceRelationships r =
        [⟨src, ⟨"Pod", "*[" ++ parseLabelSelector r.selector ++ "]",
            src.ns, none⟩,
          .LABEL_SELECTOR,
          "Selects pods with labels: " ++ parseLabelSelector r.selector⟩]) ∧
    parseLabelSelector [("app", "nginx")] = "app=nginx" ∧
    (discoverServiceRelationships svcNginx).map (fun rel => rel.target.name)
      = ["*[app=nginx]"] ∧
    strContainsSub "*[app=nginx]" "app=nginx" = true := by
  refine ⟨?_, by decide, by decide, by decide⟩
  intro r src hkind hex hsel
  simp [discoverServiceRelationships, hex, hsel]

/-- Witness for C6 at the concrete Service with selector
`{app: nginx}`. -/
theorem c6_service_label_selector_witness :
    svcNginx.kind = some "Service" ∧
    extractResourceIdentifier svcNginx
      = some ⟨"Service", "web", some "default", none⟩ ∧
    svcNginx.selector ≠ [] ∧
    discoverServiceRelationships svcNginx =
      [⟨⟨"Service", "web", some "default", none⟩,
        ⟨"Pod", "*[" ++ parseLabelSelector svcNginx.selector ++ "]",
          some "default", none⟩,
        .LABEL_SELECTOR,
        "Selects pods with labels: " ++ parseLabelSelector svcNginx.selector⟩] :=
  ⟨rfl, by decide, by decide,
   c6_service_label_selector.1 svcNginx ⟨"Service", "web", some "default", none⟩
     rfl (by decide) (by decide)⟩

/-- C7 counterexample: the claim says every discoverer's `supports`
returns a boolean and never raises, including for dicts with
null-valued nested fields.  A dict whose `metadata` key holds `None`
makes `HelmHandler.supports` raise `AttributeError`
(`None.get(...)`, helm.py line 12), and a ScaledObject dict whose
`apiVersion` holds `None` makes `KEDAHandler.supports` raise
`TypeError` (`"keda.sh" in None`, keda.py line 25). -/
theorem c7_supports_counterexample :
    helmSupports helmNullMeta = .error "AttributeError" ∧
    kedaSupports kedaNullApi = .error "TypeError" := ⟨rfl, rfl⟩

/-- C7 amended: `supports` is a pure predicate over the resource dict
(the embedded functions take no client, so no I/O) and returns a
boolean without raising for every dict whose present nested fields are
well-typed — for Helm, a dict-valued (or absent) `metadata` whose
`annotations` and `labels` entries are dict-valued or absent; for KEDA,
a string-valued (or absent) `apiVersion` — but an explicitly null
`metadata` (Helm) or null `apiVersion` on a supported kind (KEDA)
raises instead of returning `False`. -/
theorem c7_supports_amended :
    (∀ (resource : List (String × PyVal)) (es : List (String × PyVal)),
      pyDictGet resource "metadata" (.pydict []) = .pydict es →
      (pyDictGet es "annotations" (.pydict [])).isDict = true →
      (pyDictGet es "labels" (.pydict [])).isDict = true →
      ∃ b, helmSupports resource = .ok b) ∧
    (∀ (resource : List (String × PyVal)) (s : String),
      pyDictGet resource "apiVersion" (.pystr "") = .pystr s →
      ∃ b, kedaSupports resource = .ok b) := by
  constructor
  · intro resource es hmeta hann hlab
    cases hv : pyDictGet es "annotations" (.pydict []) with
    | pynone => rw [hv] at hann; simp [PyVal.isDict] at hann
    | pystr s => rw [hv] at hann; simp [PyVal.isDict] at hann
    | pydict es2 =>
      cases hw : pyDictGet es "labels" (.pydict []) with
      | pynone => rw [hw] at hlab; simp [PyVal.isDict] at hlab
      | pystr s => rw [hw] at hlab; simp [PyVal.isDict] at hlab
      | pydict es3 =>
        simp only [helmSupports, hmeta, hv, hw, pyGet, bind, Except.bind]
        cases hrel : (pyDictGet es2 "meta.helm.sh/release-name"
            PyVal.pynone).isPyNone with
        | false => exact ⟨true, by simp [hrel, pure, Except.pure]⟩
        | true =>
          exact ⟨(pyDictGet es3 "app.kubernetes.io/managed-by"
              PyVal.pynone).eqStr "Helm", by simp [hrel, pure, Except.pure]⟩
  · intro resource s hapi
    simp only [kedaSupports, hapi]
    split
    · exact ⟨_, rfl⟩
    · exact ⟨false, rfl⟩

/-- Witness for the amended C7 at well-typed dicts. -/
theorem c7_supports_amended_witness :
    pyDictGet helmLabelled "metadata" (.pydict [])
      = .pydict [("labels", .pydict
          [("app.kubernetes.io/managed-by", .pystr "Helm")])] ∧
    (∃ b, helmSupports helmLabelled = .ok b) ∧
    pyDictGet kedaScaled "apiVersion" (.pystr "")
      = .pystr "keda.sh/v1alpha1" ∧
    (∃ b, kedaSupports kedaScaled = .ok b) :=
  ⟨rfl,
   c7_supports_amended.1 helmLabelled
     [("labels", .pydict [("app.kubernetes.io/managed-by", .pystr "Helm")])]
     rfl (by decide) (by decide),
   rfl,
   c7_supports_amended.2 kedaScaled "keda.sh/v1alpha1" rfl⟩

/-- C9: `_get_node_id_from_identifier` derives the node id uniformly as
`{kind}:{namespace}:{name}` with `"cluster"` substituted for a missing
namespace, for every identifier — including wildcard selector names and
concrete generated Pod names, which receive no special casing and no
pod-template collapsing.  (The only nuance, inherited from Python's
`or`, is that an empty-string namespace is also replaced by
`"cluster"`; the uniform formula is stated for non-empty
namespaces.) -/
theorem c9_node_id_uniform (rid : ResourceIdentifier) :
    (rid.ns = none →
      nodeIdFromIdentifier rid = rid.kind ++ ":" ++ "cluster" ++ ":" ++ rid.name) ∧
    (∀ s, rid.ns = some s → s ≠ "" →
      nodeIdFromIdentifier rid = rid.kind ++ ":" ++ s ++ ":" ++ rid.name) ∧
    nodeIdFromIdentifier ⟨"Pod", "*[app=nginx]", some "default", none⟩
      = "Pod:default:*[app=nginx]" ∧
    nodeIdFromIdentifier ⟨"Pod", "nginx-rs-x7z9q", some "default", none⟩
      = "Pod:default:nginx-rs-x7z9q" := by
  refine ⟨?_, ?_, by decide, by decide⟩
  · intro h
    simp [nodeIdFromIdentifier, h]
  · intro s hs hne
    simp [nodeIdFromIdentifier, hs, hne]

/-- Witness for C9 at a cluster-scoped and a namespaced identifier. -/
theorem c9_node_id_uniform_witness :
    nodeIdFromIdentifier ⟨"StorageClass", "fast", none, none⟩
      = "StorageClass" ++ ":" ++ "cluster" ++ ":" ++ "fast" ∧
    nodeIdFromIdentifier ⟨"Secret", "tls", some "ns1", none⟩
      = "Secret" ++ ":" ++ "ns1" ++ ":" ++ "tls" :=
  ⟨(c9_node_id_uniform ⟨"StorageClass", "fast", none, none⟩).1 rfl,
   (c9_node_id_uniform ⟨"Secret", "tls", some "ns1", none⟩).2.1 "ns1" rfl
     (by decide)⟩

/-- C10 counterexample: the claim says a handler raising during
registration leaves the entire CRD mapping unchanged.  The `try` in
`register_handler` wraps the whole per-kind loop and the mapping is
mutated in place (crd_registry.py lines 66-85): a handler whose
`get_crd_info` succeeds for kind `A` and raises for kind `B` leaves
kind `A` registered, so the mapping is not unchanged. -/
theorem c10_register_counterexample :
    registerHandler [] raisingHandler = [("A", infoGVP)] ∧
    ([("A", infoGVP)] : CrdMapping) ≠ ([] : CrdMapping) := by
  exact ⟨by decide, by decide⟩

/-- C10 amended: `register_handler` never overwrites or removes an
existing registration (a kind already mapped keeps its stored info,
whatever the new handler reports); a handler lacking either capability
probe leaves the mapping unchanged; a handler whose `get_crd_kinds`
itself raises leaves the mapping unchanged; but an exception raised by
`get_crd_info` partway through the per-kind loop only stops further
registration — the kinds registered before the exception remain. -/
theorem c10_register_amended :
    (∀ (m : CrdMapping) (h : CrdHandlerModel) (k : String)
      (v : List (String × String)), List.lookup k m = some v →
      List.lookup k (registerHandler m h) = some v) ∧
    (∀ (m : CrdMapping) (h : CrdHandlerModel),
      h.hasGetCrdKinds = false ∨ h.hasGetCrdInfo = false →
      registerHandler m h = m) ∧
    (∀ (m : CrdMapping) (h : CrdHandlerModel) (e : String),
      h.getCrdKinds = .error e → registerHandler m h = m) := by
  refine ⟨?_, ?_, ?_⟩
  · intro m h k v hv
    unfold registerHandler
    split
    · exact hv
    · cases h.getCrdKinds with
      | error e => exact hv
      | ok kinds => exact registerKinds_lookup kinds hv
  · intro m h hcap
    rcases hcap with hc | hc <;> simp [registerHandler, hc]
  · intro m h e herr
    simp [registerHandler, herr]

/-- Witness for the amended C10: an existing registration for kind `A`
survives a conflicting handler, a capability-less handler and a
kinds-raising handler. -/
theorem c10_register_amended_witness :
    List.lookup "A" ([("A", infoGVP)] : CrdMapping) = some infoGVP ∧
    List.lookup "A" (registerHandler [("A", infoGVP)] conflictHandler)
      = some infoGVP ∧
    registerHandler [("A", infoGVP)] noCapHandler = [("A", infoGVP)] ∧
    registerHandler [("A", infoGVP)] kindsRaiseHandler = [("A", infoGVP)] :=
  ⟨rfl,
   c10_register_amended.1 [("A", infoGVP)] conflictHandler "A" infoGVP rfl,
   c10_register_amended.2.1 [("A", infoGVP)] noCapHandler (Or.inl rfl),
   c10_register_amended.2.2 [("A", infoGVP)] kindsRaiseHandler "boom" rfl⟩
